import Mathlib

/-!
Verification development for the `data_visualization` repository
(EPFL-RT-Driverless). We shallowly embed the live-update logic of
`Plot._update_content_live_dynamic` / `Plot._update_plot_live_dynamic`
(src/data_visualization/plot.py), the length-prefixed transport of
`Publisher.send_msg` / `Subscriber.recv_msg` / `Subscriber.run`
(src/data_visualization/publisher.py, subscriber.py) and the publisher's
queueing/shutdown behaviour, and prove or refute the frozen claims about them.

Python machine reals are modelled as `Rat`, numpy 1-D/2-D arrays as lists,
byte strings as `List Nat`, and exceptions as explicit error values
(`AssertionError` is the only exception caught by the live-update path,
exactly as in the source).
-/

namespace DV

/-! ## Data model of the live plot (from plot.py) -/

/-- `CurveType` enum from plot.py. -/
inductive CurveType where
  | static
  | regular
  | prediction
deriving DecidableEq

/-- `SubplotType` enum from plot.py. -/
inductive SubplotType where
  | spatial
  | temporal
deriving DecidableEq

/-- A numpy array value as used by the live-update path: 1-D or 2-D. -/
inductive NDArray where
  | d1 (v : List Rat)
  | d2 (m : List (List Rat))
deriving DecidableEq

/-- `ndarray.shape` as a list of dimensions (2-D arrays built by the code are
rectangular, so the width of the first row is the width). -/
def NDArray.shape : NDArray → List Nat
  | .d1 v => [v.length]
  | .d2 m => [m.length, (m.headD []).length]

/-- A value arriving for one curve inside a live frame-update mapping:
either a numpy array, a float-convertible scalar, or a value that is neither
a numpy array nor convertible to `float` (e.g. the string "abc"). -/
inductive LiveVal where
  | scalar (x : Rat)
  | arr (a : NDArray)
  | junk (s : String)
deriving DecidableEq

/-- Python exceptions relevant to the live-update path.  Only
`assertionError` is caught by `_update_content_live_dynamic`'s
`except AssertionError` and by the caller's `except AssertionError`. -/
inductive PyError where
  | assertionError
  | valueError
  | keyError
deriving DecidableEq

/-- `float(curve)`: succeeds on scalars and on numpy arrays of size one,
fails (raising, which the code converts to a `ValueError`) otherwise. -/
def floatConv : LiveVal → Option Rat
  | .scalar x => some x
  | .arr (.d1 [x]) => some x
  | .arr (.d2 [[x]]) => some x
  | _ => none

/-- `np.append(b, np.expand_dims(xs, 0), axis=0)` for a spatial regular
curve: appends `xs` as a new row of a 2-D buffer; any dimension or width
mismatch raises `ValueError` in numpy. -/
def npAppendRow (b : NDArray) (xs : List Rat) : Except PyError NDArray :=
  match b with
  | .d1 _ => .error .valueError
  | .d2 rows =>
    if rows.all (fun r => r.length = xs.length) then .ok (.d2 (rows ++ [xs]))
    else .error .valueError

/-- `np.vstack((b, np.expand_dims(u, 0)))` for a temporal prediction curve:
stacks `u` as a new row (a 1-D buffer of width w counts as one row); any
width mismatch raises `ValueError` in numpy. -/
def npVstackRow (b : NDArray) (u : List Rat) : Except PyError NDArray :=
  let rows := match b with | .d1 w => [w] | .d2 m => m
  if rows.all (fun r => r.length = u.length) then .ok (.d2 (rows ++ [u]))
  else .error .valueError

/-- `np.hstack((b, x))` for a temporal regular curve and a scalar `x`:
extends a 1-D buffer by one entry; hstack of a 2-D buffer with a scalar
raises `ValueError` in numpy. -/
def npHstackScalar (b : NDArray) (x : Rat) : Except PyError NDArray :=
  match b with
  | .d1 v => .ok (.d1 (v ++ [x]))
  | .d2 _ => .error .valueError

/-- One entry of `_content[sp]["curves"][c]`: its curve type and its
current data buffer (`None` before the first live sample). -/
structure CurveInfo where
  curve_type : CurveType
  data : Option NDArray
deriving DecidableEq

/-- One entry of `_content[sp]`: the subplot type and its curves. -/
structure SubplotInfo where
  subplot_type : SubplotType
  curves : String → Option CurveInfo

/-- The `_content` dictionary of a `Plot`. -/
abbrev Content : Type := String → Option SubplotInfo

/-- The plot state touched by the live-update path: `_content` and the
frame counter `_length_curves`. -/
structure PlotState where
  content : Content
  length_curves : Nat

/-- Look up `(subplot_type, curve info)` for `_content[sp]["curves"][c]`;
`none` models the `KeyError` case. -/
def lookupCurve (ct : Content) (sp c : String) : Option (SubplotType × CurveInfo) :=
  match ct sp with
  | none => none
  | some info =>
    match info.curves c with
    | none => none
    | some ci => some (info.subplot_type, ci)

/-- The current buffer of curve `(sp, c)` (`none` when missing or empty). -/
def curveData (ct : Content) (sp c : String) : Option NDArray :=
  match lookupCurve ct sp c with
  | some (_, ci) => ci.data
  | none => none

/-- `_content[sp]["curves"][c]["data"] = d` on a `Content`. -/
def setCurveData (ct : Content) (sp c : String) (d : NDArray) : Content :=
  fun s =>
    if s = sp then
      match ct s with
      | none => none
      | some info =>
        some { info with
          curves := fun c' =>
            if c' = c then
              match info.curves c' with
              | none => none
              | some ci => some { ci with data := some d }
            else info.curves c' }
    else ct s

/-- A live frame-update mapping `{subplot: {curve: value}}`, in dict
iteration order. -/
abbrev Frame : Type := List (String × List (String × LiveVal))

/-- The nested for-loop of `_update_content_live_dynamic` visits
`(subplot, curve, value)` triples in this order. -/
def flattenFrame : Frame → List (String × String × LiveVal)
  | [] => []
  | (sp, cs) :: rest => cs.map (fun p => (sp, p.1, p.2)) ++ flattenFrame rest

/-- Processing of one `(subplot, curve, value)` triple of a frame by
`_update_content_live_dynamic` (plot.py lines 660-831).  Returns the
content (mutated only by the temporal-regular first-sample branch, which
writes `self._content[...]["data"] = np.array([curve])` immediately) and
either a staged new buffer for `new_data` (`some`), nothing staged
(`none`), or the Python exception raised. -/
def processEntry (ct : Content) (sp c : String) (v : LiveVal) :
    Content × Except PyError (Option NDArray) :=
  match lookupCurve ct sp c with
  | none => (ct, .error .keyError)
  | some (stype, ci) =>
    match stype with
    | .spatial =>
      match ci.curve_type with
      | .regular =>
        match v with
        | .arr (.d1 xs) =>
          if xs.length = 2 then
            match ci.data with
            | none => (ct, .ok (some (.d2 [xs])))
            | some b =>
              match npAppendRow b xs with
              | .ok r => (ct, .ok (some r))
              | .error e => (ct, .error e)
          else (ct, .error .assertionError)
        | .arr (.d2 _) => (ct, .error .assertionError)
        | _ => (ct, .error .assertionError)
      | .prediction =>
        match v with
        | .arr a =>
          match ci.data with
          | none => (ct, .ok (some a))
          | some b =>
            if a.shape = b.shape then (ct, .ok (some a))
            else (ct, .error .assertionError)
        | _ => (ct, .error .assertionError)
      | .static => (ct, .ok none)
    | .temporal =>
      match ci.curve_type with
      | .regular =>
        match floatConv v with
        | none => (ct, .error .valueError)
        | some x =>
          match ci.data with
          | none => (setCurveData ct sp c (.d1 [x]), .ok none)
          | some b =>
            match npHstackScalar b x with
            | .ok r => (ct, .ok (some r))
            | .error e => (ct, .error e)
      | .prediction =>
        match v with
        | .arr (.d1 u) =>
          match ci.data with
          | none => (ct, .ok (some (.d2 [u])))
          | some b =>
            match npVstackRow b u with
            | .ok r => (ct, .ok (some r))
            | .error e => (ct, .error e)
        | .arr (.d2 _) => (ct, .error .assertionError)
        | _ => (ct, .error .assertionError)
      | .static => (ct, .ok none)

/-- The staged `new_data` updates, in insertion order. -/
abbrev NewData : Type := List (String × String × NDArray)

/-- The validation loop of `_update_content_live_dynamic`: processes the
frame's entries in order, accumulating staged updates, stopping at the
first exception (the content mutated so far is kept, as on the real
object). -/
def processEntries (ct : Content) :
    List (String × String × LiveVal) → NewData → Content × Except PyError NewData
  | [], acc => (ct, .ok acc)
  | (sp, c, v) :: rest, acc =>
    match processEntry ct sp c v with
    | (ct', .ok none) => processEntries ct' rest acc
    | (ct', .ok (some arr)) => processEntries ct' rest (acc ++ [(sp, c, arr)])
    | (ct', .error e) => (ct', .error e)

/-- The apply loop of `_update_content_live_dynamic` (plot.py lines
834-839): writes every staged buffer into `_content`. -/
def applyNewData (ct : Content) : NewData → Content
  | [] => ct
  | (sp, c, a) :: rest => applyNewData (setCurveData ct sp c a) rest

/-- `Plot._update_content_live_dynamic` (plot.py lines 654-851).  The whole
validation loop sits in one `try`; `except AssertionError` drops the frame
and returns `False`; on success the staged updates are applied,
`_length_curves` is incremented, and `True` is returned.  `ValueError` and
`KeyError` are not caught and propagate to the caller. -/
def update_content_live_dynamic (st : PlotState) (f : Frame) :
    PlotState × Except PyError Bool :=
  match processEntries st.content (flattenFrame f) [] with
  | (ct, .ok nd) =>
    ({ content := applyNewData ct nd, length_curves := st.length_curves + 1 }, .ok true)
  | (ct, .error .assertionError) => ({ st with content := ct }, .ok false)
  | (ct, .error e) => ({ st with content := ct }, .error e)

/-! ## The drain callback `_update_plot_live_dynamic` (plot.py lines 853-909) -/

/-- One message popped from the live queue: `invalid` is the `None` pushed
by the subscriber on an unpickling error, `stop` is the `STOP` sentinel,
`frame` a plain dict, `frameImage` a `(dict, image-bytes)` tuple (with the
decodability of the image), `tupleNonDict` a tuple whose first component is
not a dict, `otherData` anything else. -/
inductive Received where
  | invalid
  | stop
  | frame (f : Frame)
  | frameImage (f : Frame) (imgOk : Bool)
  | tupleNonDict
  | otherData

/-- Result of one drain: the final plot state, whether the sentinel was
seen (`_no_more_values`), and the `curves_size` argument passed to the
redraw step `_update_plot_common` (`none` when no redraw is triggered). -/
structure DrainResult where
  state : PlotState
  no_more_values : Bool
  redraw_arg : Option Nat

/-- The message loop of `_update_plot_live_dynamic`: only `AssertionError`
is caught around the content update, so `ValueError`/`KeyError` escape the
drain callback. -/
def drainLoop (st : PlotState) (hU : Bool) :
    List Received → Except PyError (PlotState × Bool × Bool)
  | [] => .ok (st, hU, false)
  | .invalid :: rest => drainLoop st hU rest
  | .stop :: _ => .ok (st, hU, true)
  | .frame f :: rest =>
    match update_content_live_dynamic st f with
    | (st', .ok b) => drainLoop st' (hU || b) rest
    | (_, .error .assertionError) => drainLoop st hU rest
    | (_, .error e) => .error e
  | .frameImage f _ :: rest =>
    match update_content_live_dynamic st f with
    | (st', .ok b) => drainLoop st' (hU || b) rest
    | (_, .error .assertionError) => drainLoop st hU rest
    | (_, .error e) => .error e
  | .tupleNonDict :: rest => drainLoop st hU rest
  | .otherData :: rest => drainLoop st hU rest

/-- `Plot._update_plot_live_dynamic` applied to the messages available in
the queue at drain time: drains them, then calls
`_update_plot_common(self._length_curves)` when at least one frame was
accepted. -/
def update_plot_live_dynamic (st : PlotState) (msgs : List Received) :
    Except PyError DrainResult :=
  match drainLoop st false msgs with
  | .ok (st', hU, stopped) =>
    .ok { state := st', no_more_values := stopped,
          redraw_arg := if hU then some st'.length_curves else none }
  | .error e => .error e

/-! ## Canonical single-curve states and frames used by the claims -/

/-- A plot whose `_content` holds a single subplot "sub" with a single
curve "crv" of the given types and buffer. -/
def oneCurveState (stype : SubplotType) (ctype : CurveType)
    (d : Option NDArray) (n : Nat) : PlotState :=
  { content := fun sp =>
      if sp = "sub" then
        some { subplot_type := stype,
               curves := fun c =>
                 if c = "crv" then some { curve_type := ctype, data := d }
                 else none }
      else none,
    length_curves := n }

/-- A frame updating only the curve "crv" of subplot "sub". -/
def oneFrame (v : LiveVal) : Frame := [("sub", [("crv", v)])]

/-- Buffer of the canonical curve after an update. -/
def oneCurveData (st : PlotState) : Option NDArray :=
  curveData st.content "sub" "crv"

/-- Successive application of scalar live updates to the canonical curve,
one frame per sample; also reports whether every frame was accepted. -/
def applyScalarSeq (st : PlotState) : List Rat → PlotState × Bool
  | [] => (st, true)
  | x :: rest =>
    match update_content_live_dynamic st (oneFrame (.scalar x)) with
    | (st', r) =>
      match applyScalarSeq st' rest with
      | (st'', ok) => (st'', (match r with | .ok true => true | _ => false) && ok)

end DV


namespace DV

/-! ## Transport layer (publisher.py / subscriber.py)

Byte strings are lists of `Nat` (each byte < 256 where produced by the
code).  `struct.pack(">I", n)` / `struct.unpack(">I", b)` are the 4-byte
big-endian encoding of an unsigned 32-bit integer. -/

/-- `struct.pack(">I", n)`: the 4-byte big-endian encoding of `n`
(defined for `n < 2^32`; `struct.pack` raises beyond that). -/
def pack32 (n : Nat) : List Nat :=
  [n / 16777216 % 256, n / 65536 % 256, n / 256 % 256, n % 256]

/-- `struct.unpack(">I", b)[0]` on a 4-byte string. -/
def unpack32 (b : List Nat) : Nat :=
  match b with
  | [b0, b1, b2, b3] => ((b0 * 256 + b1) * 256 + b2) * 256 + b3
  | _ => 0

/-- `Publisher.send_msg` (publisher.py lines 100-103): prefix the payload
with its 4-byte big-endian length and send everything. -/
def send_msg (msg : List Nat) : List Nat :=
  pack32 msg.length ++ msg

/-- `Subscriber.recvall` (subscriber.py lines 57-65): read exactly `n`
bytes from the stream, or `None` if EOF is hit first (partial bytes are
discarded). -/
def recvall (n : Nat) (s : List Nat) : Option (List Nat × List Nat) :=
  if n ≤ s.length then some (s.take n, s.drop n) else none

/-- `Subscriber.recv_msg` (subscriber.py lines 48-55): read the 4-byte
length prefix (returning `None` on EOF), then read that many payload
bytes.  Returns the payload (or `None`) and the unread remainder of the
stream. -/
def recv_msg (s : List Nat) : Option (List Nat) × List Nat :=
  match recvall 4 s with
  | none => (none, [])
  | some (raw, rest1) =>
    match recvall (unpack32 raw) rest1 with
    | none => (none, [])
    | some (payload, rest2) => (some payload, rest2)

/-- A deserialized Python value as handled by the transport and by
`_update_plot_live_dynamic`. -/
inductive PyObj where
  | noneV
  | str (s : String)
  | dict (f : Frame)
  | tup (f : Frame) (img : List Nat)
  | other
deriving DecidableEq

/-- The sentinel `STOP_SIGNAL = "STOP"` from constants.py. -/
def STOP_SIGNAL : PyObj := .str "STOP"

/-- Outcome of `pickle.loads` on a byte string: a value, or a
`pickle.PickleError` (the only exception class caught by
`Subscriber.run`). -/
inductive LoadResult where
  | ok (v : PyObj)
  | pickleError
deriving DecidableEq

/-- How `Subscriber.run` ends: a clean break after forwarding the
sentinel and closing the socket, the uncaught `TypeError` raised by
`pickle.loads(None)` after `recv_msg` returns `None`, or exhaustion of
the step budget (never reached with enough fuel). -/
inductive RunOutcome where
  | stoppedOnSentinel
  | crashTypeError
  | outOfFuel
deriving DecidableEq

/-- `Subscriber.run` (subscriber.py lines 67-84), parameterized by the
deserializer `loads` (the pickle module is standard-library code).  For a
given input byte stream it returns the list of values put on the shared
queue, in order, and how the loop ended.  On a `PickleError` the loop
sets `data = None` and pushes it; when `recv_msg` returns `None` the
call `pickle.loads(None)` raises an uncaught `TypeError`. -/
def Subscriber.run (loads : List Nat → LoadResult) :
    Nat → List Nat → List PyObj × RunOutcome
  | 0, _ => ([], .outOfFuel)
  | fuel + 1, s =>
    match recv_msg s with
    | (none, _) => ([], .crashTypeError)
    | (some payload, rest) =>
      let data := match loads payload with
        | .ok v => v
        | .pickleError => PyObj.noneV
      if data = STOP_SIGNAL then ([data], .stoppedOnSentinel)
      else
        match Subscriber.run loads fuel rest with
        | (l, o) => (data :: l, o)

/-- A concrete deserializer used by closed counterexamples and witnesses:
`[0]` is a valid pickling of `None`, `[1]` is a corrupt payload, `[7]` is
a valid pickling of the string "x". -/
def loadsEx : List Nat → LoadResult
  | [0] => .ok PyObj.noneV
  | [1] => .pickleError
  | [7] => .ok (PyObj.str "x")
  | _ => .pickleError

/-! ## Publisher state (publisher.py) -/

/-- The `Publisher` attributes touched by `publish_msg` and by shutdown:
the `stop` flag, the internal FIFO `_msg_queue`, the diagnostic
`msg_history`, and whether the socket is open and the sender thread
un-joined. -/
structure PubState where
  stop : Bool
  msg_queue : List PyObj
  msg_history : List PyObj
  socket_open : Bool
  thread_joined : Bool
deriving DecidableEq

/-- A freshly constructed `Publisher`. -/
def pubInit : PubState :=
  { stop := false, msg_queue := [], msg_history := [],
    socket_open := true, thread_joined := false }

/-- `Publisher.publish_msg` (publisher.py lines 69-83): unconditionally
appends the message to `msg_history` and to the send queue — there is no
check of the `stop` flag or of the thread state. -/
def publish_msg (st : PubState) (m : PyObj) : PubState :=
  { st with msg_history := st.msg_history ++ [m],
            msg_queue := st.msg_queue ++ [m] }

/-- `Publisher._sigint_handler` (publisher.py lines 89-98): sets the stop
flag, joins the sender thread and closes the socket.  It does not enqueue
the sentinel. -/
def sigint_handler (st : PubState) : PubState :=
  { st with stop := true, thread_joined := true, socket_open := false }

/-- Modelled from the spec: `Publisher.terminate()` is called by the
repository's examples and tests (`examples/live_dynamic_example_publisher.py`,
`tests/test_live_dynamic/live_dynamic_pub.py`) but no such method exists on
`Publisher` in src/data_visualization/publisher.py; spec §4.1: "signals the
loop to stop; sends the sentinel first (best-effort) so the remote side can
shut down cleanly; joins the background thread; closes the listening
socket."  The sentinel is sent through the ordinary publish path. -/
def terminate (st : PubState) : PubState :=
  let st1 := publish_msg st STOP_SIGNAL
  { st1 with stop := true, thread_joined := true, socket_open := false }

/-- The messages the sender loop `_publisher_thread_target` (publisher.py
lines 105-139) delivers to the subscriber when run to completion: it pops
and sends queue items in order and breaks right after sending the
sentinel, so delivery is the queue's prefix up to and including the first
sentinel. -/
def deliveredMsgs : List PyObj → List PyObj
  | [] => []
  | m :: rest => if m = STOP_SIGNAL then [m] else m :: deliveredMsgs rest

end DV

namespace DV

/-! ## Concrete fixtures for closed counterexamples -/

/-- A plot with one spatial subplot "s" holding two regular curves "A" and
"B", both with one sample already in their buffers. -/
def stC1 : PlotState :=
  { content := fun sp =>
      if sp = "s" then
        some { subplot_type := .spatial,
               curves := fun c =>
                 if c = "A" then some { curve_type := .regular, data := some (.d2 [[0, 0]]) }
                 else if c = "B" then some { curve_type := .regular, data := some (.d2 [[1, 1]]) }
                 else none }
      else none,
    length_curves := 1 }

/-- A frame carrying a malformed value for curve "A" (shape `(3,)` instead
of `(2,)`) and a valid value for curve "B". -/
def fC1 : Frame := [("s", [("A", .arr (.d1 [9, 9, 9])), ("B", .arr (.d1 [4, 5]))])]

end DV

namespace DV

/-! ## Helper lemmas -/

theorem take_len_append {α : Type} (l r : List α) : (l ++ r).take l.length = l := by
  induction l with
  | nil => simp
  | cons a t ih => simp [ih]

theorem drop_len_append {α : Type} (l r : List α) : (l ++ r).drop l.length = r := by
  induction l with
  | nil => simp
  | cons a t ih => simp [ih]

theorem unpack32_pack32 (n : Nat) (h : n < 4294967296) : unpack32 (pack32 n) = n := by
  simp only [pack32, unpack32]
  omega

/-- Framing round trip at the byte level. -/
theorem recv_msg_send_msg (msg rest : List Nat) (h : msg.length < 4294967296) :
    recv_msg (send_msg msg ++ rest) = (some msg, rest) := by
  have e1 : send_msg msg ++ rest = pack32 msg.length ++ (msg ++ rest) := by
    simp [send_msg]
  have h4 : (pack32 msg.length).length = 4 := rfl
  rw [recv_msg, e1]
  rw [recvall]
  rw [if_pos (by simp [h4])]
  rw [show (4 : Nat) = (pack32 msg.length).length from rfl]
  rw [take_len_append, drop_len_append]
  show (match recvall (unpack32 (pack32 msg.length)) (msg ++ rest) with
    | none => (none, [])
    | some (payload, rest2) => (some payload, rest2)) = (some msg, rest)
  rw [unpack32_pack32 msg.length h]
  rw [recvall]
  rw [if_pos (by simp)]
  rw [take_len_append, drop_len_append]

end DV

namespace DV

/-! ## Claim C6 -/

/-- C6 (confirmed): framing a byte payload with the publisher's send
operation (`send_msg`: 4-byte big-endian length prefix followed by the
payload) and reading it back with the subscriber's receive operation
(`recv_msg`) yields exactly the original payload bytes and leaves the rest
of the stream untouched; consequently, for any serializer/deserializer
pair that round-trips a payload value (as Python pickling does for the
accepted shapes: mapping, sentinel, tuple-with-image), the value the
subscriber's read loop recovers from the framed serialized bytes is equal
to the original value. -/
theorem C6_length_prefix_round_trip (msg rest : List Nat)
    (h : msg.length < 4294967296)
    (dumps : PyObj → List Nat) (loads : List Nat → LoadResult) (v : PyObj)
    (fuel : Nat) (rest2 : List Nat)
    (hrt : loads (dumps v) = .ok v) (hlen : (dumps v).length < 4294967296) :
    recv_msg (send_msg msg ++ rest) = (some msg, rest)
    ∧ (Subscriber.run loads (fuel + 1) (send_msg (dumps v) ++ rest2)).1.head? = some v := by
  refine ⟨recv_msg_send_msg msg rest h, ?_⟩
  rw [Subscriber.run, recv_msg_send_msg (dumps v) rest2 hlen]
  simp only [hrt]
  by_cases hv : v = STOP_SIGNAL
  · simp [hv]
  · simp only [if_neg hv]
    cases hr : Subscriber.run loads fuel rest2 with
    | mk l o => simp

/-- Witness for C6 at a concrete payload, serializer and value. -/
theorem C6_witness :
    recv_msg (send_msg [9, 8] ++ [5]) = (some [9, 8], [5])
    ∧ (Subscriber.run loadsEx 1 (send_msg [7] ++ [])).1.head? = some (PyObj.str "x") :=
  C6_length_prefix_round_trip [9, 8] [5] (by decide)
    (fun _ => [7]) loadsEx (PyObj.str "x") 0 [] rfl (by decide)

/-! ## Claim C4 -/

/-- C4 counterexample: the claim says the subscriber pushes a
"deserialization failed" marker distinct from `None`-as-valid-data.  In
the code (`Subscriber.run`, subscriber.py lines 70-76) the marker IS the
Python value `None`: a corrupt payload (`[1]` under `loadsEx`) and a
validly pickled `None` (`[0]` under `loadsEx`) lead to identical queue
contents, so the consumer cannot tell them apart. -/
theorem C4_counterexample :
    Subscriber.run loadsEx 2 (send_msg [1]) = ([PyObj.noneV], .crashTypeError)
    ∧ Subscriber.run loadsEx 2 (send_msg [0]) = ([PyObj.noneV], .crashTypeError)
    ∧ loadsEx [1] = .pickleError ∧ loadsEx [0] = .ok PyObj.noneV :=
  ⟨rfl, rfl, rfl, rfl⟩

/-- C4 (amended): when a received frame's payload fails to deserialize
with a `pickle.PickleError`, the subscriber's read loop does not crash
and does not stop: it pushes the Python value `None` onto the shared
queue and continues with the rest of the stream.  The pushed marker is
`None` itself, which is NOT distinct from a frame whose valid
deserialized value is `None`. -/
theorem C4_pickle_error_pushes_none (loads : List Nat → LoadResult)
    (fuel : Nat) (p rest : List Nat)
    (hl : loads p = .pickleError) (hlen : p.length < 4294967296) :
    Subscriber.run loads (fuel + 1) (send_msg p ++ rest)
      = (PyObj.noneV :: (Subscriber.run loads fuel rest).1,
         (Subscriber.run loads fuel rest).2) := by
  rw [Subscriber.run, recv_msg_send_msg p rest hlen]
  simp only [hl]
  have hne : PyObj.noneV ≠ STOP_SIGNAL := by decide
  simp only [if_neg hne]

/-- Witness for C4 at a concrete corrupt frame followed by a valid one. -/
theorem C4_witness :
    Subscriber.run loadsEx 2 (send_msg [1] ++ send_msg [7])
      = (PyObj.noneV :: (Subscriber.run loadsEx 1 (send_msg [7])).1,
         (Subscriber.run loadsEx 1 (send_msg [7])).2) :=
  C4_pickle_error_pushes_none loadsEx 1 [1] (send_msg [7]) rfl (by decide)

/-! ## Claim C8 -/

/-- C8 counterexample: on a connection that closes before the 4-byte
length prefix is available (stream `[0, 0]`), the read loop does stop and
pushes nothing, but not by treating the condition as a clean end-of-stream
(the outcome reserved for the sentinel): `recv_msg` returns `None` and the
subsequent `pickle.loads(None)` raises an uncaught `TypeError`, killing
the loop. -/
theorem C8_counterexample :
    Subscriber.run loadsEx 1 [0, 0] = ([], .crashTypeError)
    ∧ RunOutcome.crashTypeError ≠ RunOutcome.stoppedOnSentinel :=
  ⟨rfl, by decide⟩

/-- C8 (amended): if the connection closes before the 4-byte length
prefix is fully available, the subscriber's read loop terminates and
pushes no message onto the shared queue — but it terminates via the
uncaught `TypeError` raised by `pickle.loads(None)` on the `None`
returned by `recv_msg`, not via a graceful end-of-stream break. -/
theorem C8_truncated_prefix_crash (loads : List Nat → LoadResult)
    (fuel : Nat) (s : List Nat) (h : s.length < 4) :
    Subscriber.run loads (fuel + 1) s = ([], .crashTypeError) := by
  rw [Subscriber.run]
  have : recv_msg s = (none, []) := by
    rw [recv_msg, recvall, if_neg (by omega)]
  rw [this]

/-- Witness for C8 at a concrete 1-byte stream. -/
theorem C8_witness : Subscriber.run loadsEx 1 [5] = ([], .crashTypeError) :=
  C8_truncated_prefix_crash loadsEx 0 [5] (by decide)

end DV

namespace DV

/-! ## Claim C5 -/

theorem foldl_publish_queue (ms : List PyObj) (st : PubState) :
    (ms.foldl publish_msg st).msg_queue = st.msg_queue ++ ms := by
  induction ms generalizing st with
  | nil => simp
  | cons m rest ih => simp [List.foldl_cons, ih, publish_msg]

theorem deliveredMsgs_append_after_stop (q r : List PyObj) :
    deliveredMsgs ((q ++ [STOP_SIGNAL]) ++ r) = deliveredMsgs (q ++ [STOP_SIGNAL]) := by
  induction q with
  | nil => simp [deliveredMsgs]
  | cons m rest ih =>
    by_cases hm : m = STOP_SIGNAL
    · simp [deliveredMsgs, hm]
    · simp only [List.cons_append, deliveredMsgs, if_neg hm]
      congr 1

/-- C5 counterexample: the claim says the publisher does not accept
further sends after `terminate()`.  `Publisher.publish_msg`
(publisher.py lines 69-83) checks neither the `stop` flag nor the thread
state, so a message published after `terminate()` is accepted into both
the history and the send queue (though, landing after the sentinel, it is
never delivered). -/
theorem C5_counterexample :
    (publish_msg (terminate pubInit) (PyObj.str "x")).msg_queue
        = [STOP_SIGNAL, PyObj.str "x"]
    ∧ (publish_msg (terminate pubInit) (PyObj.str "x")).msg_history
        = [STOP_SIGNAL, PyObj.str "x"]
    ∧ deliveredMsgs (publish_msg (terminate pubInit) (PyObj.str "x")).msg_queue
        = [STOP_SIGNAL] :=
  ⟨rfl, rfl, rfl⟩

/-- C5 (amended, spec-modelled `terminate`): `terminate()` enqueues the
sentinel (so it is sent before the sender loop stops), signals the loop to
stop, joins the background thread and closes the socket; the publisher
STILL ACCEPTS further sends afterwards (`publish_msg` has no guard), but
no message published after `terminate()` is ever delivered to the
subscriber: the sender loop delivers exactly the queue prefix up to and
including the first sentinel, which is unaffected by later publishes. -/
theorem C5_terminate_behaviour (st : PubState) (ms : List PyObj) :
    (terminate st).stop = true
    ∧ (terminate st).thread_joined = true
    ∧ (terminate st).socket_open = false
    ∧ (terminate st).msg_queue = st.msg_queue ++ [STOP_SIGNAL]
    ∧ deliveredMsgs (ms.foldl publish_msg (terminate st)).msg_queue
        = deliveredMsgs (terminate st).msg_queue := by
  refine ⟨rfl, rfl, rfl, rfl, ?_⟩
  rw [foldl_publish_queue]
  show deliveredMsgs ((st.msg_queue ++ [STOP_SIGNAL]) ++ ms)
        = deliveredMsgs (st.msg_queue ++ [STOP_SIGNAL])
  exact deliveredMsgs_append_after_stop st.msg_queue ms

end DV

namespace DV

/-! ## Buffer-preservation lemmas for the live-update path -/

theorem curveData_set_ne (ct : Content) (sp c : String) (d : NDArray)
    (sp' c' : String) (h : ¬(sp' = sp ∧ c' = c)) :
    curveData (setCurveData ct sp c d) sp' c' = curveData ct sp' c' := by
  unfold curveData lookupCurve setCurveData
  by_cases hsp : sp' = sp
  · subst hsp
    have hc : ¬ c' = c := fun hcc => h ⟨rfl, hcc⟩
    simp only [if_pos rfl]
    cases hct : ct sp' with
    | none => rfl
    | some info => simp [hc]
  · simp only [if_neg hsp]

/-- The only in-place content mutation done while validating one frame
entry is the temporal-regular first-sample write, which targets a curve
whose buffer is empty. -/
theorem processEntry_fst (ct : Content) (sp c : String) (v : LiveVal) :
    (processEntry ct sp c v).1 = ct
    ∨ (curveData ct sp c = none
        ∧ ∃ x : Rat, (processEntry ct sp c v).1 = setCurveData ct sp c (.d1 [x])) := by
  unfold processEntry
  cases hl : lookupCurve ct sp c with
  | none => exact Or.inl rfl
  | some p =>
    obtain ⟨stype, ci⟩ := p
    obtain ⟨cty, cdata⟩ := ci
    have hcd : curveData ct sp c = cdata := by
      unfold curveData; rw [hl]
    cases stype <;> cases cty <;> cases v <;> cases cdata <;> dsimp only <;>
      repeat' split
    all_goals
      first
      | exact Or.inl rfl
      | exact Or.inr ⟨hcd, _, rfl⟩

theorem processEntry_preserves (ct : Content) (sp c : String) (v : LiveVal)
    (sp' c' : String) (b : NDArray) (h : curveData ct sp' c' = some b) :
    curveData (processEntry ct sp c v).1 sp' c' = some b := by
  rcases processEntry_fst ct sp c v with he | ⟨hnone, x, he⟩
  · rw [he]; exact h
  · rw [he]
    have hne : ¬(sp' = sp ∧ c' = c) := by
      rintro ⟨rfl, rfl⟩
      rw [h] at hnone
      exact Option.noConfusion hnone
    rw [curveData_set_ne ct sp c _ sp' c' hne]
    exact h

theorem processEntries_preserves (entries : List (String × String × LiveVal))
    (ct : Content) (acc : NewData) (sp' c' : String) (b : NDArray)
    (h : curveData ct sp' c' = some b) :
    curveData (processEntries ct entries acc).1 sp' c' = some b := by
  induction entries generalizing ct acc with
  | nil => simpa [processEntries] using h
  | cons e rest ih =>
    obtain ⟨sp, c, v⟩ := e
    have hp := processEntry_preserves ct sp c v sp' c' b h
    rw [processEntries]
    cases hpe : processEntry ct sp c v with
    | mk ct2 r =>
      rw [hpe] at hp
      cases r with
      | ok o =>
        cases o with
        | none => exact ih ct2 acc hp
        | some arr => exact ih ct2 (acc ++ [(sp, c, arr)]) hp
      | error e => simpa using hp

end DV

namespace DV

/-! ## Claim C1 -/

/-- C1 counterexample: a frame carrying a malformed value for curve "A"
(shape `(3,)` where `(2,)` is required) and a valid value for curve "B"
is dropped as a whole by `_update_content_live_dynamic`: the call returns
`False` and B's buffer does NOT reflect the new value `[4, 5]` — it still
holds its old single sample, refuting the claimed partial-frame
isolation. -/
theorem C1_counterexample :
    (update_content_live_dynamic stC1 fC1).2 = .ok false
    ∧ curveData (update_content_live_dynamic stC1 fC1).1.content "s" "B"
        = some (.d2 [[1, 1]])
    ∧ some (NDArray.d2 [[1, 1]]) ≠ some (NDArray.d2 [[1, 1], [4, 5]]) :=
  ⟨rfl, rfl, by decide⟩

/-- C1 (amended): a live frame containing a malformed (assertion-failing)
value for one curve is dropped as a WHOLE, with a diagnostic, the update
function returning `False`: no staged update from that frame is applied,
so every curve whose buffer was already populated (non-`None`) — in
particular a curve B with a valid update in the same frame — keeps its
previous buffer unchanged.  (The only content mutation a dropped frame
can leave behind is the eager first-sample write for a temporal-regular
curve whose buffer was still empty.) -/
theorem C1_malformed_value_drops_whole_frame (st : PlotState) (f : Frame)
    (st' : PlotState) (h : update_content_live_dynamic st f = (st', .ok false)) :
    ∀ sp c b, curveData st.content sp c = some b →
      curveData st'.content sp c = some b := by
  intro sp c b hb
  have hpre := processEntries_preserves (flattenFrame f) st.content [] sp c b hb
  rw [update_content_live_dynamic] at h
  cases hp : processEntries st.content (flattenFrame f) [] with
  | mk ct r =>
    rw [hp] at h hpre
    cases r with
    | ok nd => simp at h
    | error e =>
      cases e with
      | assertionError =>
        simp only [Prod.mk.injEq] at h
        have hst : st' = { st with content := ct } := h.1.symm
        rw [hst]
        exact hpre
      | valueError => simp at h
      | keyError => simp at h

/-- Witness for C1 at the concrete two-curve state. -/
theorem C1_witness :
    curveData (update_content_live_dynamic stC1 fC1).1.content "s" "A"
      = some (.d2 [[0, 0]]) :=
  C1_malformed_value_drops_whole_frame stC1 fC1
    (update_content_live_dynamic stC1 fC1).1 rfl "s" "A" (.d2 [[0, 0]]) rfl

/-! ## Claim C10 -/

/-- C10 (confirmed): if `_update_content_live_dynamic` returns `True` the
frame counter `_length_curves` grows by exactly 1 (however many curves
the frame touches); if it returns `False` the counter is unchanged; and
whenever the drain callback `_update_plot_live_dynamic` triggers a
redraw, the argument it passes to `_update_plot_common` is exactly that
counter of the final state. -/
theorem C10_length_curves_counter (st : PlotState) (f : Frame) :
    (∀ st', update_content_live_dynamic st f = (st', .ok true) →
        st'.length_curves = st.length_curves + 1)
    ∧ (∀ st', update_content_live_dynamic st f = (st', .ok false) →
        st'.length_curves = st.length_curves)
    ∧ (∀ msgs res, update_plot_live_dynamic st msgs = .ok res →
        res.redraw_arg = none ∨ res.redraw_arg = some res.state.length_curves) := by
  refine ⟨?_, ?_, ?_⟩
  · intro st' h
    rw [update_content_live_dynamic] at h
    cases hp : processEntries st.content (flattenFrame f) [] with
    | mk ct r =>
      rw [hp] at h
      cases r with
      | ok nd =>
        simp only [Prod.mk.injEq] at h
        rw [← h.1]
      | error e => cases e <;> simp at h
  · intro st' h
    rw [update_content_live_dynamic] at h
    cases hp : processEntries st.content (flattenFrame f) [] with
    | mk ct r =>
      rw [hp] at h
      cases r with
      | ok nd => simp at h
      | error e =>
        cases e with
        | assertionError =>
          simp only [Prod.mk.injEq] at h
          rw [← h.1]
        | valueError => simp at h
        | keyError => simp at h
  · intro msgs res h
    rw [update_plot_live_dynamic] at h
    cases hd : drainLoop st false msgs with
    | ok out =>
      obtain ⟨st', hU, stopped⟩ := out
      rw [hd] at h
      simp only [Except.ok.injEq] at h
      cases hU with
      | false => left; rw [← h]; simp
      | true => right; rw [← h]; simp
    | error e => rw [hd] at h; exact absurd h (by simp)

/-- Witness for C10: a one-curve frame accepted from counter 0, a
malformed frame dropped at counter 4, and a drain whose redraw argument
equals the final counter. -/
theorem C10_witness :
    (update_content_live_dynamic (oneCurveState .temporal .regular none 0)
        (oneFrame (.scalar 1))).1.length_curves = 0 + 1
    ∧ (update_content_live_dynamic (oneCurveState .spatial .regular (some (.d2 [[0, 0]])) 4)
        (oneFrame (.junk "z"))).1.length_curves = 4
    ∧ ((DrainResult.mk (update_content_live_dynamic (oneCurveState .temporal .regular none 0)
          (oneFrame (.scalar 1))).1 false (some 1)).redraw_arg = none
       ∨ (DrainResult.mk (update_content_live_dynamic (oneCurveState .temporal .regular none 0)
          (oneFrame (.scalar 1))).1 false (some 1)).redraw_arg
         = some (DrainResult.mk (update_content_live_dynamic (oneCurveState .temporal .regular none 0)
          (oneFrame (.scalar 1))).1 false (some 1)).state.length_curves) :=
  ⟨(C10_length_curves_counter (oneCurveState .temporal .regular none 0)
      (oneFrame (.scalar 1))).1 _ rfl,
   (C10_length_curves_counter (oneCurveState .spatial .regular (some (.d2 [[0, 0]])) 4)
      (oneFrame (.junk "z"))).2.1 _ rfl,
   (C10_length_curves_counter (oneCurveState .temporal .regular none 0)
      (oneFrame (.scalar 1))).2.2 [.frame (oneFrame (.scalar 1))] _ rfl⟩

/-! ## Claim C7 -/

/-- C7 counterexample: a live frame whose value for a `Temporal+Regular`
curve is not convertible to a float makes `_update_content_live_dynamic`
raise a `ValueError`, which is caught neither there (only
`AssertionError` is) nor in `_update_plot_live_dynamic`: the drain
callback raises to its caller instead of returning normally. -/
theorem C7_counterexample :
    update_plot_live_dynamic (oneCurveState .temporal .regular (some (.d1 [0])) 1)
        [.frame (oneFrame (.junk "abc"))]
      = .error .valueError := rfl

/-- C7 (amended): validation failures raised as `AssertionError` are
caught and only surface as a diagnostic — the drain proceeds normally
past the dropped frame; but a `Temporal+Regular` value that is not
convertible to a real number raises a `ValueError` that propagates out of
the drain callback to its caller. -/
theorem C7_assertion_caught_valueerror_raised (st st' : PlotState) (f : Frame)
    (rest : List Received) :
    (update_content_live_dynamic st f = (st', .ok false) →
        update_plot_live_dynamic st (.frame f :: rest)
          = update_plot_live_dynamic st' rest)
    ∧ (update_content_live_dynamic st f = (st', .error .valueError) →
        update_plot_live_dynamic st (.frame f :: rest) = .error .valueError) := by
  constructor
  · intro h
    rw [update_plot_live_dynamic, update_plot_live_dynamic, drainLoop, h]
    rfl
  · intro h
    rw [update_plot_live_dynamic, drainLoop, h]

/-- Witness for C7: an assertion-failing frame is skipped and the drain
continues; a float-conversion failure raises. -/
theorem C7_witness :
    update_plot_live_dynamic (oneCurveState .spatial .regular (some (.d2 [[0, 0]])) 1)
        [.frame (oneFrame (.junk "zz"))]
      = update_plot_live_dynamic
          (update_content_live_dynamic (oneCurveState .spatial .regular (some (.d2 [[0, 0]])) 1)
            (oneFrame (.junk "zz"))).1 []
    ∧ update_plot_live_dynamic (oneCurveState .temporal .regular (some (.d1 [7])) 1)
        [.frame (oneFrame (.junk "nope"))]
      = .error .valueError :=
  ⟨(C7_assertion_caught_valueerror_raised
      (oneCurveState .spatial .regular (some (.d2 [[0, 0]])) 1) _ (oneFrame (.junk "zz")) []).1 rfl,
   (C7_assertion_caught_valueerror_raised
      (oneCurveState .temporal .regular (some (.d1 [7])) 1) _ (oneFrame (.junk "nope")) []).2 rfl⟩

end DV

namespace DV

/-! ## Characterization of single-curve updates -/

theorem plotStateEq {a b : PlotState} (h1 : a.content = b.content)
    (h2 : a.length_curves = b.length_curves) : a = b := by
  cases a; cases b; cases h1; cases h2; rfl

theorem setCurveData_oneCurve (stype : SubplotType) (ctype : CurveType)
    (d0 : Option NDArray) (n : Nat) (d : NDArray) :
    setCurveData (oneCurveState stype ctype d0 n).content "sub" "crv" d
      = (oneCurveState stype ctype (some d) n).content := by
  funext sp
  by_cases hsp : sp = "sub"
  · subst hsp
    simp [setCurveData, oneCurveState]
    funext c
    by_cases hc : c = "crv" <;> simp [hc]
  · simp [setCurveData, oneCurveState, hsp]

/-- First live sample of a `Temporal+Regular` curve: written immediately
into the content as a length-1 buffer; the frame is accepted. -/
theorem step_tempReg_none (x : Rat) (n : Nat) :
    (update_content_live_dynamic (oneCurveState .temporal .regular none n)
        (oneFrame (.scalar x))).1
      = oneCurveState .temporal .regular (some (.d1 [x])) (n + 1)
    ∧ (update_content_live_dynamic (oneCurveState .temporal .regular none n)
        (oneFrame (.scalar x))).2 = .ok true := by
  refine ⟨plotStateEq ?_ rfl, rfl⟩
  show setCurveData (oneCurveState SubplotType.temporal CurveType.regular none n).content
      "sub" "crv" (.d1 [x])
    = (oneCurveState SubplotType.temporal CurveType.regular (some (.d1 [x])) (n + 1)).content
  exact setCurveData_oneCurve _ _ _ n _

/-- Subsequent live sample of a `Temporal+Regular` curve: `np.hstack`
extends the buffer by exactly one entry; the frame is accepted. -/
theorem step_tempReg_some (acc : List Rat) (x : Rat) (n : Nat) :
    (update_content_live_dynamic (oneCurveState .temporal .regular (some (.d1 acc)) n)
        (oneFrame (.scalar x))).1
      = oneCurveState .temporal .regular (some (.d1 (acc ++ [x]))) (n + 1)
    ∧ (update_content_live_dynamic (oneCurveState .temporal .regular (some (.d1 acc)) n)
        (oneFrame (.scalar x))).2 = .ok true := by
  refine ⟨plotStateEq ?_ rfl, rfl⟩
  show setCurveData (oneCurveState SubplotType.temporal CurveType.regular (some (.d1 acc)) n).content
      "sub" "crv" (.d1 (acc ++ [x]))
    = (oneCurveState SubplotType.temporal CurveType.regular (some (.d1 (acc ++ [x]))) (n + 1)).content
  exact setCurveData_oneCurve _ _ _ n _

theorem applyScalarSeq_acc (xs : List Rat) (acc : List Rat) (n : Nat) :
    applyScalarSeq (oneCurveState .temporal .regular (some (.d1 acc)) n) xs
      = (oneCurveState .temporal .regular (some (.d1 (acc ++ xs))) (n + xs.length), true) := by
  induction xs generalizing acc n with
  | nil => simp [applyScalarSeq]
  | cons x rest ih =>
    obtain ⟨h1, h2⟩ := step_tempReg_some acc x n
    have hpair : update_content_live_dynamic
        (oneCurveState .temporal .regular (some (.d1 acc)) n) (oneFrame (.scalar x))
        = (oneCurveState .temporal .regular (some (.d1 (acc ++ [x]))) (n + 1), .ok true) := by
      rw [← h1, ← h2]
    rw [applyScalarSeq, hpair]
    dsimp only
    rw [ih (acc ++ [x]) (n + 1)]
    have hlen : n + 1 + rest.length = n + (x :: rest).length := by
      simp; omega
    have happ : (acc ++ [x]) ++ rest = acc ++ (x :: rest) := by
      simp
    rw [hlen, happ]
    simp

end DV

namespace DV

/-! ## Claim C3 -/

/-- C3 (confirmed): starting from an empty (`None`) buffer, a sequence of
valid scalar live updates to a `Temporal+Regular` curve is accumulated in
arrival order: the first sample initializes a length-1 buffer, each later
sample extends it by exactly one entry, and after the whole sequence the
buffer is exactly the list of update values (so it has length N and its
i-th entry is the i-th update), every frame having been accepted. -/
theorem C3_regular_accumulates (xs : List Rat) (h : xs ≠ []) (n : Nat) :
    oneCurveData (applyScalarSeq (oneCurveState .temporal .regular none n) xs).1
      = some (.d1 xs)
    ∧ (applyScalarSeq (oneCurveState .temporal .regular none n) xs).2 = true := by
  cases xs with
  | nil => exact absurd rfl h
  | cons x rest =>
    obtain ⟨h1, h2⟩ := step_tempReg_none x n
    have hpair : update_content_live_dynamic
        (oneCurveState .temporal .regular none n) (oneFrame (.scalar x))
        = (oneCurveState .temporal .regular (some (.d1 [x])) (n + 1), .ok true) := by
      rw [← h1, ← h2]
    rw [applyScalarSeq, hpair]
    dsimp only
    rw [applyScalarSeq_acc rest [x] (n + 1)]
    exact ⟨rfl, rfl⟩

/-- Witness for C3 on three concrete samples. -/
theorem C3_witness :
    oneCurveData (applyScalarSeq (oneCurveState .temporal .regular none 0) [1, 2, 3]).1
      = some (.d1 [1, 2, 3])
    ∧ (applyScalarSeq (oneCurveState .temporal .regular none 0) [1, 2, 3]).2 = true :=
  C3_regular_accumulates [1, 2, 3] (by decide) 0

end DV

namespace DV

/-! ## Claim C2 -/

theorem step_tempPred_some (rows : List (List Rat)) (u : List Rat) (n : Nat)
    (hall : rows.all (fun r => r.length = u.length) = true) :
    (update_content_live_dynamic
        (oneCurveState .temporal .prediction (some (.d2 rows)) n)
        (oneFrame (.arr (.d1 u)))).1
      = oneCurveState .temporal .prediction (some (.d2 (rows ++ [u]))) (n + 1)
    ∧ (update_content_live_dynamic
        (oneCurveState .temporal .prediction (some (.d2 rows)) n)
        (oneFrame (.arr (.d1 u)))).2 = .ok true := by
  have hv : npVstackRow (.d2 rows) u = .ok (.d2 (rows ++ [u])) := by
    simp [npVstackRow, hall]
  have hpe : processEntry
      (oneCurveState SubplotType.temporal CurveType.prediction (some (.d2 rows)) n).content
      "sub" "crv" (.arr (.d1 u))
      = ((oneCurveState SubplotType.temporal CurveType.prediction (some (.d2 rows)) n).content,
         .ok (some (.d2 (rows ++ [u])))) := by
    show (match npVstackRow (.d2 rows) u with
      | .ok r =>
        ((oneCurveState SubplotType.temporal CurveType.prediction (some (NDArray.d2 rows)) n).content,
         (Except.ok (some r) : Except PyError (Option NDArray)))
      | .error e =>
        ((oneCurveState SubplotType.temporal CurveType.prediction (some (NDArray.d2 rows)) n).content,
         Except.error e)) = _
    rw [hv]
  have hq : processEntries
      (oneCurveState SubplotType.temporal CurveType.prediction (some (.d2 rows)) n).content
      (flattenFrame (oneFrame (.arr (.d1 u)))) []
      = ((oneCurveState SubplotType.temporal CurveType.prediction (some (.d2 rows)) n).content,
         .ok [("sub", "crv", NDArray.d2 (rows ++ [u]))]) := by
    show (match processEntry
        (oneCurveState SubplotType.temporal CurveType.prediction (some (.d2 rows)) n).content
        "sub" "crv" (.arr (.d1 u)) with
      | (ct', .ok none) => processEntries ct' [] []
      | (ct', .ok (some arr)) => processEntries ct' [] ([] ++ [("sub", "crv", arr)])
      | (ct', .error e) => (ct', .error e)) = _
    rw [hpe]
    rfl
  have hu : update_content_live_dynamic
      (oneCurveState .temporal .prediction (some (.d2 rows)) n) (oneFrame (.arr (.d1 u)))
      = ({ content := setCurveData
             (oneCurveState SubplotType.temporal CurveType.prediction (some (.d2 rows)) n).content
             "sub" "crv" (.d2 (rows ++ [u])),
           length_curves := n + 1 }, .ok true) := by
    rw [update_content_live_dynamic, hq]
    rfl
  refine ⟨?_, by rw [hu]⟩
  rw [hu]
  exact plotStateEq (setCurveData_oneCurve _ _ _ n _) rfl

/-- C2 (corrected): for a `Temporal+Prediction` curve the live update does
NOT replace the buffer with the incoming vector.  The first valid 1-D
update of a curve with an empty buffer initializes a one-row matrix
`[u]`; each subsequent valid 1-D update whose length matches the stored
rows is `np.vstack`ed as a NEW row onto the existing buffer (the buffer
is the stacked history of forecasts); and an update whose length differs
from the stored rows raises an uncaught `ValueError` instead of
replacing the buffer. -/
theorem C2_prediction_appends_not_replaces (rows : List (List Rat)) (u : List Rat) (n : Nat) :
    ((update_content_live_dynamic (oneCurveState .temporal .prediction none n)
        (oneFrame (.arr (.d1 u)))).2 = .ok true
      ∧ oneCurveData (update_content_live_dynamic (oneCurveState .temporal .prediction none n)
          (oneFrame (.arr (.d1 u)))).1 = some (.d2 [u]))
    ∧ (rows.all (fun r => r.length = u.length) = true →
        ((update_content_live_dynamic (oneCurveState .temporal .prediction (some (.d2 rows)) n)
            (oneFrame (.arr (.d1 u)))).2 = .ok true
          ∧ oneCurveData (update_content_live_dynamic
              (oneCurveState .temporal .prediction (some (.d2 rows)) n)
              (oneFrame (.arr (.d1 u)))).1 = some (.d2 (rows ++ [u]))))
    ∧ (rows.all (fun r => r.length = u.length) = false →
        (update_content_live_dynamic (oneCurveState .temporal .prediction (some (.d2 rows)) n)
            (oneFrame (.arr (.d1 u)))).2 = .error .valueError) := by
  refine ⟨⟨rfl, rfl⟩, ?_, ?_⟩
  · intro hall
    obtain ⟨h1, h2⟩ := step_tempPred_some rows u n hall
    refine ⟨h2, ?_⟩
    rw [h1]
    rfl
  · intro hfalse
    have hv : npVstackRow (.d2 rows) u = .error .valueError := by
      simp [npVstackRow, hfalse]
    have hpe : processEntry
        (oneCurveState SubplotType.temporal CurveType.prediction (some (.d2 rows)) n).content
        "sub" "crv" (.arr (.d1 u))
        = ((oneCurveState SubplotType.temporal CurveType.prediction (some (.d2 rows)) n).content,
           .error .valueError) := by
      show (match npVstackRow (.d2 rows) u with
        | .ok r =>
          ((oneCurveState SubplotType.temporal CurveType.prediction (some (NDArray.d2 rows)) n).content,
           (Except.ok (some r) : Except PyError (Option NDArray)))
        | .error e =>
          ((oneCurveState SubplotType.temporal CurveType.prediction (some (NDArray.d2 rows)) n).content,
           Except.error e)) = _
      rw [hv]
    have hq : processEntries
        (oneCurveState SubplotType.temporal CurveType.prediction (some (.d2 rows)) n).content
        (flattenFrame (oneFrame (.arr (.d1 u)))) []
        = ((oneCurveState SubplotType.temporal CurveType.prediction (some (.d2 rows)) n).content,
           .error .valueError) := by
      show (match processEntry
          (oneCurveState SubplotType.temporal CurveType.prediction (some (.d2 rows)) n).content
          "sub" "crv" (.arr (.d1 u)) with
        | (ct', .ok none) => processEntries ct' [] []
        | (ct', .ok (some arr)) => processEntries ct' [] ([] ++ [("sub", "crv", arr)])
        | (ct', .error e) => (ct', .error e)) = _
      rw [hpe]
    rw [update_content_live_dynamic, hq]

/-- C2 counterexample: after a valid length-2 update on a
`Temporal+Prediction` buffer holding `[[1, 2]]`, the buffer is the
two-row history `[[1, 2], [3, 4]]`, not the incoming vector `[3, 4]`
(under either reading of "equals the vector"); and a subsequent valid
update of a different length raises `ValueError` instead of replacing. -/
theorem C2_counterexample :
    (update_content_live_dynamic (oneCurveState .temporal .prediction (some (.d2 [[1, 2]])) 1)
        (oneFrame (.arr (.d1 [3, 4])))).2 = .ok true
    ∧ oneCurveData (update_content_live_dynamic
        (oneCurveState .temporal .prediction (some (.d2 [[1, 2]])) 1)
        (oneFrame (.arr (.d1 [3, 4])))).1 = some (.d2 [[1, 2], [3, 4]])
    ∧ some (NDArray.d2 [[1, 2], [3, 4]]) ≠ some (NDArray.d2 [[3, 4]])
    ∧ NDArray.d2 [[1, 2], [3, 4]] ≠ NDArray.d1 [3, 4]
    ∧ (update_content_live_dynamic (oneCurveState .temporal .prediction (some (.d2 [[1, 2]])) 1)
        (oneFrame (.arr (.d1 [5, 6, 7])))).2 = .error .valueError :=
  ⟨rfl, rfl, by decide, by decide, rfl⟩

/-- Witness for C2 at concrete buffers and vectors. -/
theorem C2_witness :
    ((update_content_live_dynamic (oneCurveState .temporal .prediction none 0)
        (oneFrame (.arr (.d1 [2, 3])))).2 = .ok true
      ∧ oneCurveData (update_content_live_dynamic (oneCurveState .temporal .prediction none 0)
          (oneFrame (.arr (.d1 [2, 3])))).1 = some (.d2 [[2, 3]]))
    ∧ ((update_content_live_dynamic (oneCurveState .temporal .prediction (some (.d2 [[0, 1]])) 0)
          (oneFrame (.arr (.d1 [2, 3])))).2 = .ok true
        ∧ oneCurveData (update_content_live_dynamic
            (oneCurveState .temporal .prediction (some (.d2 [[0, 1]])) 0)
            (oneFrame (.arr (.d1 [2, 3])))).1 = some (.d2 [[0, 1], [2, 3]]))
    ∧ (update_content_live_dynamic (oneCurveState .temporal .prediction (some (.d2 [[0, 1]])) 0)
        (oneFrame (.arr (.d1 [4, 5, 6])))).2 = .error .valueError :=
  ⟨(C2_prediction_appends_not_replaces [[0, 1]] [2, 3] 0).1,
   (C2_prediction_appends_not_replaces [[0, 1]] [2, 3] 0).2.1 (by decide),
   (C2_prediction_appends_not_replaces [[0, 1]] [4, 5, 6] 0).2.2 (by decide)⟩

end DV

namespace DV

/-! ## Claim C9 -/

/-- C9 (amended): for a `Spatial+Prediction` curve the incoming live
value must be a numpy array, and every accepted update replaces the
curve's buffer wholesale with the incoming array; but the `(M, 2)` 2-D
shape is NOT enforced: the first update of an empty buffer is accepted
whatever the array's shape, and each later update is accepted exactly
when its full shape equals the current buffer's shape (which yields the
claimed consistency, while a mismatch drops the frame and leaves the
buffer unchanged). -/
theorem C9_spatial_prediction_replaces (a b : NDArray) (n : Nat) :
    ((update_content_live_dynamic (oneCurveState .spatial .prediction none n)
        (oneFrame (.arr a))).2 = .ok true
      ∧ oneCurveData (update_content_live_dynamic (oneCurveState .spatial .prediction none n)
          (oneFrame (.arr a))).1 = some a)
    ∧ (a.shape = b.shape →
        ((update_content_live_dynamic (oneCurveState .spatial .prediction (some b) n)
            (oneFrame (.arr a))).2 = .ok true
          ∧ oneCurveData (update_content_live_dynamic
              (oneCurveState .spatial .prediction (some b) n) (oneFrame (.arr a))).1 = some a))
    ∧ (a.shape ≠ b.shape →
        ((update_content_live_dynamic (oneCurveState .spatial .prediction (some b) n)
            (oneFrame (.arr a))).2 = .ok false
          ∧ oneCurveData (update_content_live_dynamic
              (oneCurveState .spatial .prediction (some b) n) (oneFrame (.arr a))).1 = some b)) := by
  refine ⟨⟨rfl, rfl⟩, ?_, ?_⟩
  · intro hs
    have hpe : processEntry
        (oneCurveState SubplotType.spatial CurveType.prediction (some b) n).content
        "sub" "crv" (.arr a)
        = ((oneCurveState SubplotType.spatial CurveType.prediction (some b) n).content,
           .ok (some a)) := by
      show (if a.shape = b.shape then
          ((oneCurveState SubplotType.spatial CurveType.prediction (some b) n).content,
           (Except.ok (some a) : Except PyError (Option NDArray)))
        else
          ((oneCurveState SubplotType.spatial CurveType.prediction (some b) n).content,
           Except.error PyError.assertionError)) = _
      rw [if_pos hs]
    have hq : processEntries
        (oneCurveState SubplotType.spatial CurveType.prediction (some b) n).content
        (flattenFrame (oneFrame (.arr a))) []
        = ((oneCurveState SubplotType.spatial CurveType.prediction (some b) n).content,
           .ok [("sub", "crv", a)]) := by
      show (match processEntry
          (oneCurveState SubplotType.spatial CurveType.prediction (some b) n).content
          "sub" "crv" (.arr a) with
        | (ct', .ok none) => processEntries ct' [] []
        | (ct', .ok (some arr)) => processEntries ct' [] ([] ++ [("sub", "crv", arr)])
        | (ct', .error e) => (ct', .error e)) = _
      rw [hpe]
      rfl
    have hu : update_content_live_dynamic
        (oneCurveState .spatial .prediction (some b) n) (oneFrame (.arr a))
        = ({ content := setCurveData
               (oneCurveState SubplotType.spatial CurveType.prediction (some b) n).content
               "sub" "crv" a,
             length_curves := n + 1 }, .ok true) := by
      rw [update_content_live_dynamic, hq]
      rfl
    refine ⟨by rw [hu], ?_⟩
    rw [hu]
    show curveData (setCurveData
        (oneCurveState SubplotType.spatial CurveType.prediction (some b) n).content
        "sub" "crv" a) "sub" "crv" = some a
    rw [setCurveData_oneCurve]
    rfl
  · intro hs
    have hpe : processEntry
        (oneCurveState SubplotType.spatial CurveType.prediction (some b) n).content
        "sub" "crv" (.arr a)
        = ((oneCurveState SubplotType.spatial CurveType.prediction (some b) n).content,
           .error .assertionError) := by
      show (if a.shape = b.shape then
          ((oneCurveState SubplotType.spatial CurveType.prediction (some b) n).content,
           (Except.ok (some a) : Except PyError (Option NDArray)))
        else
          ((oneCurveState SubplotType.spatial CurveType.prediction (some b) n).content,
           Except.error PyError.assertionError)) = _
      rw [if_neg hs]
    have hq : processEntries
        (oneCurveState SubplotType.spatial CurveType.prediction (some b) n).content
        (flattenFrame (oneFrame (.arr a))) []
        = ((oneCurveState SubplotType.spatial CurveType.prediction (some b) n).content,
           .error .assertionError) := by
      show (match processEntry
          (oneCurveState SubplotType.spatial CurveType.prediction (some b) n).content
          "sub" "crv" (.arr a) with
        | (ct', .ok none) => processEntries ct' [] []
        | (ct', .ok (some arr)) => processEntries ct' [] ([] ++ [("sub", "crv", arr)])
        | (ct', .error e) => (ct', .error e)) = _
      rw [hpe]
    constructor
    · rw [update_content_live_dynamic, hq]
    · rw [update_content_live_dynamic, hq]
      rfl

/-- C9 counterexample: a `Spatial+Prediction` curve with an empty buffer
accepts a 1-D array of shape `(3,)` — not a 2-D `(M, 2)` array — and
stores it as the new buffer, refuting the claimed input requirement. -/
theorem C9_counterexample :
    (update_content_live_dynamic (oneCurveState .spatial .prediction none 0)
        (oneFrame (.arr (.d1 [1, 2, 3])))).2 = .ok true
    ∧ oneCurveData (update_content_live_dynamic (oneCurveState .spatial .prediction none 0)
        (oneFrame (.arr (.d1 [1, 2, 3])))).1 = some (.d1 [1, 2, 3])
    ∧ (NDArray.d1 [1, 2, 3]).shape = [3] :=
  ⟨rfl, rfl, rfl⟩

/-- Witness for C9: a first update, a matching-shape replacement and a
mismatched-shape drop, on concrete arrays. -/
theorem C9_witness :
    ((update_content_live_dynamic (oneCurveState .spatial .prediction none 0)
        (oneFrame (.arr (.d2 [[1, 2], [3, 4]])))).2 = .ok true
      ∧ oneCurveData (update_content_live_dynamic (oneCurveState .spatial .prediction none 0)
          (oneFrame (.arr (.d2 [[1, 2], [3, 4]])))).1 = some (.d2 [[1, 2], [3, 4]]))
    ∧ ((update_content_live_dynamic
          (oneCurveState .spatial .prediction (some (.d2 [[5, 6], [7, 8]])) 0)
          (oneFrame (.arr (.d2 [[1, 2], [3, 4]])))).2 = .ok true
        ∧ oneCurveData (update_content_live_dynamic
            (oneCurveState .spatial .prediction (some (.d2 [[5, 6], [7, 8]])) 0)
            (oneFrame (.arr (.d2 [[1, 2], [3, 4]])))).1 = some (.d2 [[1, 2], [3, 4]]))
    ∧ ((update_content_live_dynamic
          (oneCurveState .spatial .prediction (some (.d2 [[5, 6]])) 0)
          (oneFrame (.arr (.d2 [[1, 2], [3, 4]])))).2 = .ok false
        ∧ oneCurveData (update_content_live_dynamic
            (oneCurveState .spatial .prediction (some (.d2 [[5, 6]])) 0)
            (oneFrame (.arr (.d2 [[1, 2], [3, 4]])))).1 = some (.d2 [[5, 6]])) :=
  ⟨(C9_spatial_prediction_replaces (.d2 [[1, 2], [3, 4]]) (.d2 [[5, 6], [7, 8]]) 0).1,
   (C9_spatial_prediction_replaces (.d2 [[1, 2], [3, 4]]) (.d2 [[5, 6], [7, 8]]) 0).2.1 (by decide),
   (C9_spatial_prediction_replaces (.d2 [[1, 2], [3, 4]]) (.d2 [[5, 6]]) 0).2.2 (by decide)⟩

end DV
